import Mathlib

/-!
Shallow embedding of `src/bot_prefect.py`, a two-stage pipeline:
`generate_quote` (Gemini call with string-matched error classification)
followed by `to_telegram` (Telegram POST with its own classification),
composed by `main_flow`.  External effects (the LLM call outcome, the
HTTP outcome) are inputs; emitted HTTP requests and `print` log lines
are returned explicitly.
-/

namespace BotPrefect

/-- Case-sensitive substring test: `strContains s pat` is `true` iff
`pat` occurs contiguously inside `s` (Python's `pat in s`). -/
def strContains (s pat : String) : Bool := decide (pat.data <:+: s.data)

/-- Process environment: the three credentials read via `os.getenv`
(lines 11-13); `none` models an unset variable. -/
structure Env where
  google_api_key : Option String
  telegram_token : Option String
  telegram_chat_id : Option String

/-- Python truthiness of an `os.getenv` result: `None` and the empty
string are falsy, every other string is truthy. -/
def truthy : Option String → Bool
  | none => false
  | some s => !(s == "")

/-- Python's `str(e).lower()`, modelled as per-character ASCII lowering. -/
def lowerStr (s : String) : String := ⟨s.data.map Char.toLower⟩

/-- The fixed prompt sent to the model (line 32). -/
def prompt_text : String := "Create 1 short, punchy motivational quote for a programmer. Just the quote, no intro text."

/-- Log line printed at the start of `generate_quote` (line 20). -/
def GEN_START_LOG : String := "\n⏰ ACTION TIME! Initiating connection to Gemini AI..."

/-- Separator line printed around the AI answer (lines 39, 41). -/
def SEP_LOG : String := "------------------------------------------------"

/-- Classified message for the 401 / api_key branch (line 51). -/
def GEN_AUTH_MSG : String := "❌ Gemini Auth Error: Invalid API Key."

/-- Classified message for the 429 / quota branch (line 53). -/
def GEN_QUOTA_MSG : String := "⏳ Gemini Quota Error: Rate limit exceeded."

/-- Classified message for the connection branch (line 55). -/
def GEN_NETWORK_MSG : String := "❌ Gemini Network Error: Failed to connect."

/-- Classified fallback message (line 57). -/
def GEN_INTERNAL_MSG : String := "❌ Gemini Internal Error (Details hidden)."

/-- The four sanitized messages `generate_quote` can produce on failure. -/
def genSafeMessages : List String :=
  [GEN_AUTH_MSG, GEN_QUOTA_MSG, GEN_NETWORK_MSG, GEN_INTERNAL_MSG]

/-- The `except` block of `generate_quote` (lines 45-57): lowercases the
exception text and picks the first matching category. -/
def classify_gen_error (e : String) : String :=
  let error_str := lowerStr e
  if strContains error_str "401" || strContains error_str "api_key" then
    GEN_AUTH_MSG
  else if strContains error_str "429" || strContains error_str "quota" then
    GEN_QUOTA_MSG
  else if strContains error_str "connection" then
    GEN_NETWORK_MSG
  else
    GEN_INTERNAL_MSG

/-- One invocation of the Gemini model: the arguments of
`ChatGoogleGenerativeAI(...)` and `llm.invoke(...)` (lines 24-35). -/
structure LlmCall where
  model : String
  google_api_key : Option String
  prompt : String
deriving DecidableEq, Repr

/-- What an execution of `generate_quote` produced: the model calls it
attempted, its return value, and the log lines it printed. -/
structure GenOutput where
  calls : List LlmCall
  result : String
  logs : List String
deriving DecidableEq, Repr

/-- `generate_quote` (lines 15-60).  The outcome of the `llm.invoke`
call is the input `llm`: `.ok content` when the model answers with
`response.content = content`, `.error e` when the attempt raises an
exception whose `str` is `e`. -/
def generate_quote (google_api_key : Option String)
    (llm : Except String String) : GenOutput :=
  let call : LlmCall := ⟨"gemini-2.5-flash", google_api_key, prompt_text⟩
  match llm with
  | .ok ai_msg =>
      ⟨[call], ai_msg,
        [GEN_START_LOG, SEP_LOG, "🤖 AI MENTOR SAYS:\n" ++ ai_msg, SEP_LOG]⟩
  | .error e =>
      let safe_msg := classify_gen_error e
      ⟨[call], safe_msg, [GEN_START_LOG, safe_msg]⟩

/-- Error line when the Telegram credentials are missing (line 68). -/
def TG_MISSING_CREDS_LOG : String := "❌ Error: Telegram credentials are missing."

/-- Success line for HTTP 200 (line 85). -/
def TG_SUCCESS_LOG : String := "✅ Success: Message sent to Telegram!"

/-- Classified message for the connection / dns branch (line 97). -/
def TG_NETWORK_MSG : String := "❌ Network Error: Failed to connect to Telegram API."

/-- Classified message for the timeout branch (line 99). -/
def TG_TIMEOUT_MSG : String := "⏳ Timeout Error: Telegram API did not respond."

/-- Classified message for the ssl branch (line 101). -/
def TG_SSL_MSG : String := "🔒 SSL Error: Certificate verification failed."

/-- Classified fallback message (line 103). -/
def TG_UNKNOWN_MSG : String := "❌ Telegram Send Failed: Unknown error occurred."

/-- The four sanitized messages the transport-failure handler can log. -/
def tgTransportMessages : List String :=
  [TG_NETWORK_MSG, TG_TIMEOUT_MSG, TG_SSL_MSG, TG_UNKNOWN_MSG]

/-- The Telegram endpoint URL built on line 71; it embeds the token. -/
def telegramUrl (token : String) : String :=
  "https://api.telegram.org/bot" ++ token ++ "/sendMessage"

/-- The JSON body of the POST (the `data` dict, lines 73-77). -/
structure TgBody where
  chat_id : String
  text : String
  parse_mode : String
deriving DecidableEq, Repr

/-- One HTTP POST issued by `to_telegram` (line 81). -/
structure TgPost where
  url : String
  body : TgBody
deriving DecidableEq, Repr

/-- Outcome of `requests.post`: either an HTTP response (status code and
body text) or a raised exception whose `str` is the given string. -/
inductive TgWorld where
  | response (status_code : Nat) (text : String)
  | exn (e : String)
deriving DecidableEq, Repr

/-- The `except` block of `to_telegram` (lines 91-103): lowercases the
exception text and picks the first matching category's log line. -/
def classify_tg_error (e : String) : String :=
  let error_str := lowerStr e
  if strContains error_str "connection" || strContains error_str "dns" then
    TG_NETWORK_MSG
  else if strContains error_str "timeout" then
    TG_TIMEOUT_MSG
  else if strContains error_str "ssl" then
    TG_SSL_MSG
  else
    TG_UNKNOWN_MSG

/-- What an execution of `to_telegram` produced: the POSTs it issued and
the log lines it printed. -/
structure TgOutput where
  posts : List TgPost
  logs : List String
deriving DecidableEq, Repr

/-- `to_telegram` (lines 62-103).  `world` is the outcome of the
`requests.post` call, consulted only if the request is actually made. -/
def to_telegram (telegram_token telegram_chat_id : Option String)
    (msg : String) (world : TgWorld) : TgOutput :=
  if !(truthy telegram_token) || !(truthy telegram_chat_id) then
    ⟨[], [TG_MISSING_CREDS_LOG]⟩
  else
    let url := telegramUrl (telegram_token.getD "")
    let data : TgBody := ⟨telegram_chat_id.getD "", msg, "Markdown"⟩
    match world with
    | .response status_code text =>
        if status_code == 200 then
          ⟨[⟨url, data⟩], [TG_SUCCESS_LOG]⟩
        else
          ⟨[⟨url, data⟩],
            ["❌ Telegram Refused: Status Code " ++ toString status_code,
             "📄 Error Details: " ++ text]⟩
    | .exn e =>
        ⟨[⟨url, data⟩], [classify_tg_error e]⟩

/-- What one run of the flow produced. -/
structure FlowOutput where
  calls : List LlmCall
  posts : List TgPost
  logs : List String
deriving DecidableEq, Repr

/-- `main_flow` (lines 105-112): runs `generate_quote`, then passes its
return value unconditionally to `to_telegram`. -/
def main_flow (env : Env) (llm : Except String String)
    (world : TgWorld) : FlowOutput :=
  let g := generate_quote env.google_api_key llm
  let t := to_telegram env.telegram_token env.telegram_chat_id g.result world
  ⟨g.calls, t.posts, g.logs ++ t.logs⟩

/-! ### Helper lemmas shared by the claim theorems -/

lemma generate_quote_calls (key : Option String) (llm : Except String String) :
    (generate_quote key llm).calls = [⟨"gemini-2.5-flash", key, prompt_text⟩] := by
  cases llm <;> rfl

lemma generate_quote_logs (key : Option String) (llm : Except String String) :
    (generate_quote key llm).logs =
      match llm with
      | .ok c => [GEN_START_LOG, SEP_LOG, "🤖 AI MENTOR SAYS:\n" ++ c, SEP_LOG]
      | .error e => [GEN_START_LOG, classify_gen_error e] := by
  cases llm <;> rfl

lemma classify_gen_error_mem (e : String) :
    classify_gen_error e ∈ genSafeMessages := by
  unfold classify_gen_error
  dsimp only
  split_ifs <;> simp [genSafeMessages]

lemma classify_tg_error_mem (e : String) :
    classify_tg_error e ∈ tgTransportMessages := by
  unfold classify_tg_error
  dsimp only
  split_ifs <;> simp [tgTransportMessages]

/-- The log lines of `to_telegram` once the credential check has passed,
as a function of the HTTP outcome alone. -/
def tgWorldLogs : TgWorld → List String
  | .response code text =>
      if code == 200 then [TG_SUCCESS_LOG]
      else ["❌ Telegram Refused: Status Code " ++ toString code,
            "📄 Error Details: " ++ text]
  | .exn e => [classify_tg_error e]

lemma to_telegram_present (token chat : Option String) (msg : String)
    (world : TgWorld) (htok : truthy token = true) (hchat : truthy chat = true) :
    to_telegram token chat msg world =
      ⟨[⟨telegramUrl (token.getD ""), ⟨chat.getD "", msg, "Markdown"⟩⟩],
        tgWorldLogs world⟩ := by
  cases world with
  | response code text =>
      by_cases h : code = 200 <;> simp [to_telegram, tgWorldLogs, htok, hchat, h]
  | exn e => simp [to_telegram, tgWorldLogs, htok, hchat]

lemma to_telegram_absent (token chat : Option String) (msg : String)
    (world : TgWorld) (h : truthy token = false ∨ truthy chat = false) :
    to_telegram token chat msg world = ⟨[], [TG_MISSING_CREDS_LOG]⟩ := by
  rcases h with h | h <;> simp [to_telegram, h]

/-- Every log line a run in which both stages fail can produce. -/
def failureLogConstants : List String :=
  [GEN_START_LOG, GEN_AUTH_MSG, GEN_QUOTA_MSG, GEN_NETWORK_MSG, GEN_INTERNAL_MSG,
   TG_MISSING_CREDS_LOG, TG_NETWORK_MSG, TG_TIMEOUT_MSG, TG_SSL_MSG, TG_UNKNOWN_MSG]

lemma genSafe_subset : ∀ x ∈ genSafeMessages, x ∈ failureLogConstants := by decide

lemma tgTransport_subset : ∀ x ∈ tgTransportMessages, x ∈ failureLogConstants := by decide

lemma double_failure_logs_mem (env : Env) (e etg line : String)
    (h : line ∈ (main_flow env (.error e) (.exn etg)).logs) :
    line ∈ failureLogConstants := by
  have hflow : (main_flow env (.error e) (.exn etg)).logs =
      GEN_START_LOG :: classify_gen_error e ::
        (to_telegram env.telegram_token env.telegram_chat_id
          (classify_gen_error e) (.exn etg)).logs := by
    simp [main_flow, generate_quote]
  rw [hflow] at h
  rcases List.mem_cons.mp h with rfl | h
  · decide
  rcases List.mem_cons.mp h with rfl | h
  · exact genSafe_subset _ (classify_gen_error_mem e)
  by_cases ht : truthy env.telegram_token = true
  · by_cases hc : truthy env.telegram_chat_id = true
    · rw [to_telegram_present _ _ _ _ ht hc] at h
      simp only [tgWorldLogs, List.mem_singleton] at h
      subst h
      exact tgTransport_subset _ (classify_tg_error_mem etg)
    · have hc' : truthy env.telegram_chat_id = false := by simpa using hc
      rw [to_telegram_absent _ _ _ _ (Or.inr hc')] at h
      simp only [List.mem_singleton] at h
      subst h
      decide
  · have ht' : truthy env.telegram_token = false := by simpa using ht
    rw [to_telegram_absent _ _ _ _ (Or.inl ht')] at h
    simp only [List.mem_singleton] at h
    subst h
    decide

lemma url_head_part (token : String) :
    "https://api.telegram.org/bot".data <:+: (telegramUrl token).data :=
  ⟨[], token.data ++ "/sendMessage".data, by
    simp [telegramUrl, String.data_append]⟩

lemma url_not_in_constants (token l : String) (hl : l ∈ failureLogConstants) :
    ¬ ((telegramUrl token).data <:+: l.data) := by
  intro hinf
  have habs : "https://api.telegram.org/bot".data <:+: l.data :=
    (url_head_part token).trans hinf
  simp only [failureLogConstants, List.mem_cons, List.not_mem_nil, or_false] at hl
  rcases hl with rfl | rfl | rfl | rfl | rfl | rfl | rfl | rfl | rfl | rfl <;>
    exact absurd habs (by decide)

/-! ### Claim theorems -/

/-- C1: whatever string `generate_quote` returns (real quote or classified
error), `main_flow` passes it unchanged to `to_telegram`, and when both
Telegram credentials are present the single outgoing POST has as body
exactly the chat id, that text, and parse_mode "Markdown". -/
theorem flow_forwards_result_to_post (env : Env) (llm : Except String String)
    (world : TgWorld)
    (htok : truthy env.telegram_token = true)
    (hchat : truthy env.telegram_chat_id = true) :
    (main_flow env llm world).posts =
      [⟨telegramUrl (env.telegram_token.getD ""),
        ⟨env.telegram_chat_id.getD "",
         (generate_quote env.google_api_key llm).result, "Markdown"⟩⟩] := by
  have h := to_telegram_present env.telegram_token env.telegram_chat_id
      (generate_quote env.google_api_key llm).result world htok hchat
  simp [main_flow, h]

/-- Witness for C1: with credentials present and the model answering
"Stay hungry.", the outgoing body is exactly that chat id, that text and
parse_mode "Markdown". -/
theorem flow_forwards_result_to_post_witness :
    (main_flow ⟨some "gkey", some "SECRET-TOKEN", some "4242"⟩
        (.ok "Stay hungry.") (.response 200 "ok")).posts =
      [⟨telegramUrl "SECRET-TOKEN", ⟨"4242", "Stay hungry.", "Markdown"⟩⟩] := by
  have h := flow_forwards_result_to_post ⟨some "gkey", some "SECRET-TOKEN", some "4242"⟩
      (.ok "Stay hungry.") (.response 200 "ok") (by decide) (by decide)
  simpa [generate_quote] using h

/-- C2: the generation-stage classifier works case-insensitively in
priority order: 401/api_key gives the Auth message, else 429/quota the
Quota message, else connection the Network message, else the Internal
message; a message containing both 401 and 429 takes the Auth branch. -/
theorem classify_gen_error_priority (e : String) :
    ((strContains (lowerStr e) "401" = true ∨ strContains (lowerStr e) "api_key" = true) →
        classify_gen_error e = GEN_AUTH_MSG)
    ∧ (strContains (lowerStr e) "401" = false → strContains (lowerStr e) "api_key" = false →
        (strContains (lowerStr e) "429" = true ∨ strContains (lowerStr e) "quota" = true) →
        classify_gen_error e = GEN_QUOTA_MSG)
    ∧ (strContains (lowerStr e) "401" = false → strContains (lowerStr e) "api_key" = false →
        strContains (lowerStr e) "429" = false → strContains (lowerStr e) "quota" = false →
        strContains (lowerStr e) "connection" = true →
        classify_gen_error e = GEN_NETWORK_MSG)
    ∧ (strContains (lowerStr e) "401" = false → strContains (lowerStr e) "api_key" = false →
        strContains (lowerStr e) "429" = false → strContains (lowerStr e) "quota" = false →
        strContains (lowerStr e) "connection" = false →
        classify_gen_error e = GEN_INTERNAL_MSG)
    ∧ (strContains (lowerStr e) "401" = true → strContains (lowerStr e) "429" = true →
        classify_gen_error e = GEN_AUTH_MSG) := by
  refine ⟨?_, ?_, ?_, ?_, ?_⟩
  · rintro (h | h) <;> simp [classify_gen_error, h]
  · rintro h1 h2 (h | h) <;> simp [classify_gen_error, h1, h2, h]
  · intro h1 h2 h3 h4 h5
    simp [classify_gen_error, h1, h2, h3, h4, h5]
  · intro h1 h2 h3 h4 h5
    simp [classify_gen_error, h1, h2, h3, h4, h5]
  · intro h1 _
    simp [classify_gen_error, h1]

/-- Witness for C2: an ambiguous message containing both 401 and 429 is
classified as the Auth message. -/
theorem classify_gen_error_priority_witness :
    classify_gen_error "Error 401 then 429" = GEN_AUTH_MSG :=
  (classify_gen_error_priority "Error 401 then 429").2.2.2.2 (by decide) (by decide)

/-- C3: `generate_quote` returns a string on every path: the model answer
on success, and on any exception the classified message — never the raw
exception text, which also never reaches the logs. -/
theorem generate_quote_never_raises (key : Option String) :
    (∀ c, (generate_quote key (.ok c)).result = c)
    ∧ (∀ e, (generate_quote key (.error e)).result = classify_gen_error e
        ∧ (generate_quote key (.error e)).logs = [GEN_START_LOG, classify_gen_error e]
        ∧ classify_gen_error e ∈ genSafeMessages) :=
  ⟨fun _ => rfl, fun e => ⟨rfl, rfl, classify_gen_error_mem e⟩⟩

/-- C4: when the bot token or the chat id is absent, `to_telegram` issues
zero HTTP POSTs and logs exactly one error line. -/
theorem to_telegram_missing_creds (token chat : Option String) (msg : String)
    (world : TgWorld) (h : truthy token = false ∨ truthy chat = false) :
    to_telegram token chat msg world = ⟨[], [TG_MISSING_CREDS_LOG]⟩ :=
  to_telegram_absent token chat msg world h

/-- Witness for C4: with the token unset, no POST is made and the single
missing-credentials line is logged. -/
theorem to_telegram_missing_creds_witness :
    to_telegram none (some "4242") "hello" (.response 200 "ok") =
      ⟨[], [TG_MISSING_CREDS_LOG]⟩ :=
  to_telegram_missing_creds none (some "4242") "hello" (.response 200 "ok")
    (Or.inl (by decide))

/-- C6: on any HTTP response with a status code other than 200,
`to_telegram` logs exactly the status-code line and the literal body
text; no transport-error classification line appears. -/
theorem to_telegram_http_rejection (token chat : Option String)
    (msg text : String) (code : Nat)
    (htok : truthy token = true) (hchat : truthy chat = true)
    (hcode : code ≠ 200) :
    (to_telegram token chat msg (.response code text)).logs =
      ["❌ Telegram Refused: Status Code " ++ toString code,
       "📄 Error Details: " ++ text] := by
  rw [to_telegram_present token chat msg _ htok hchat]
  simp [tgWorldLogs, hcode]

/-- Witness for C6: HTTP 403 with a JSON error body logs the 403 line and
the literal body. -/
theorem to_telegram_http_rejection_witness :
    (to_telegram (some "SECRET-TOKEN") (some "4242") "hi"
        (.response 403 "\x7b\"error\":\"bad\"\x7d")).logs =
      ["❌ Telegram Refused: Status Code 403",
       "📄 Error Details: \x7b\"error\":\"bad\"\x7d"] := by
  rw [to_telegram_http_rejection (some "SECRET-TOKEN") (some "4242") "hi"
      "\x7b\"error\":\"bad\"\x7d" 403 (by decide) (by decide) (by decide)]
  decide

/-- C7: on an HTTP 200 response, `to_telegram` logs exactly the success
line; no error-classification branch runs. -/
theorem to_telegram_http_success (token chat : Option String)
    (msg text : String)
    (htok : truthy token = true) (hchat : truthy chat = true) :
    (to_telegram token chat msg (.response 200 text)).logs = [TG_SUCCESS_LOG] := by
  rw [to_telegram_present token chat msg _ htok hchat]
  simp [tgWorldLogs]

/-- Witness for C7: a concrete 200 response logs only the success line. -/
theorem to_telegram_http_success_witness :
    (to_telegram (some "SECRET-TOKEN") (some "4242") "hi"
        (.response 200 "ok")).logs = [TG_SUCCESS_LOG] :=
  to_telegram_http_success (some "SECRET-TOKEN") (some "4242") "hi" "ok"
    (by decide) (by decide)

/-- C8: on a transport failure, `to_telegram` logs exactly one line,
chosen case-insensitively in priority order (connection/dns, then
timeout, then ssl, else unknown); the four category lines are pairwise
distinct and the exception is not re-raised. -/
theorem to_telegram_transport_classified (token chat : Option String)
    (msg e : String)
    (htok : truthy token = true) (hchat : truthy chat = true) :
    (to_telegram token chat msg (.exn e)).logs = [classify_tg_error e]
    ∧ ((strContains (lowerStr e) "connection" = true ∨ strContains (lowerStr e) "dns" = true) →
        classify_tg_error e = TG_NETWORK_MSG)
    ∧ (strContains (lowerStr e) "connection" = false → strContains (lowerStr e) "dns" = false →
        strContains (lowerStr e) "timeout" = true →
        classify_tg_error e = TG_TIMEOUT_MSG)
    ∧ (strContains (lowerStr e) "connection" = false → strContains (lowerStr e) "dns" = false →
        strContains (lowerStr e) "timeout" = false →
        strContains (lowerStr e) "ssl" = true →
        classify_tg_error e = TG_SSL_MSG)
    ∧ (strContains (lowerStr e) "connection" = false → strContains (lowerStr e) "dns" = false →
        strContains (lowerStr e) "timeout" = false →
        strContains (lowerStr e) "ssl" = false →
        classify_tg_error e = TG_UNKNOWN_MSG)
    ∧ tgTransportMessages.Pairwise (· ≠ ·) := by
  refine ⟨?_, ?_, ?_, ?_, ?_, by decide⟩
  · rw [to_telegram_present token chat msg _ htok hchat]
    rfl
  · rintro (h | h) <;> simp [classify_tg_error, h]
  · intro h1 h2 h3
    simp [classify_tg_error, h1, h2, h3]
  · intro h1 h2 h3 h4
    simp [classify_tg_error, h1, h2, h3, h4]
  · intro h1 h2 h3 h4
    simp [classify_tg_error, h1, h2, h3, h4]

/-- Witness for C8: a "Connection reset" transport failure logs exactly
the network-category line. -/
theorem to_telegram_transport_classified_witness :
    (to_telegram (some "SECRET-TOKEN") (some "4242") "hi"
        (.exn "Connection reset by peer")).logs = [TG_NETWORK_MSG] := by
  have h := to_telegram_transport_classified (some "SECRET-TOKEN") (some "4242")
      "hi" "Connection reset by peer" (by decide) (by decide)
  rw [h.1, h.2.1 (Or.inl (by decide))]

/-- C9: `generate_quote` never checks whether the AI API key is present:
with the key unset it still performs the model call, an exception
mentioning api_key is classified as the Auth message, and the classified
message is still forwarded to Telegram when those credentials exist. -/
theorem generate_quote_no_key_guard (env : Env) (llm : Except String String)
    (e : String) (world : TgWorld) (hkey : env.google_api_key = none) :
    (generate_quote env.google_api_key llm).calls =
      [⟨"gemini-2.5-flash", none, prompt_text⟩]
    ∧ (strContains (lowerStr e) "api_key" = true →
        (generate_quote env.google_api_key (.error e)).result = GEN_AUTH_MSG)
    ∧ (truthy env.telegram_token = true → truthy env.telegram_chat_id = true →
        (main_flow env (.error e) world).posts =
          [⟨telegramUrl (env.telegram_token.getD ""),
            ⟨env.telegram_chat_id.getD "", classify_gen_error e, "Markdown"⟩⟩]) := by
  refine ⟨?_, ?_, ?_⟩
  · rw [hkey, generate_quote_calls]
  · intro hapi
    simp [generate_quote, classify_gen_error, hapi]
  · intro ht hc
    have h := to_telegram_present env.telegram_token env.telegram_chat_id
        (classify_gen_error e) world ht hc
    simp [main_flow, h, generate_quote]

/-- Witness for C9: with no API key, the model call is still attempted and
an api_key exception yields the Auth message. -/
theorem generate_quote_no_key_guard_witness :
    (generate_quote none (.error "Did not find api_key")).calls =
      [⟨"gemini-2.5-flash", none, prompt_text⟩]
    ∧ (generate_quote none (.error "Did not find api_key")).result = GEN_AUTH_MSG := by
  have h := generate_quote_no_key_guard ⟨none, some "tok", some "42"⟩
      (.error "Did not find api_key") "Did not find api_key"
      (.response 200 "ok") rfl
  exact ⟨h.1, h.2.1 (by decide)⟩

/-- C10: on failure `generate_quote` returns one of exactly four fixed,
pairwise-distinct constants, and which one depends only on which of the
matched substrings occur, not on the rest of the exception text. -/
theorem generate_quote_failure_range (key : Option String) :
    (∀ c, (generate_quote key (.ok c)).result = c)
    ∧ (∀ e, (generate_quote key (.error e)).result ∈ genSafeMessages)
    ∧ genSafeMessages.length = 4
    ∧ genSafeMessages.Pairwise (· ≠ ·)
    ∧ (∀ e1 e2,
        (∀ pat ∈ ["401", "api_key", "429", "quota", "connection"],
          strContains (lowerStr e1) pat = strContains (lowerStr e2) pat) →
        (generate_quote key (.error e1)).result =
          (generate_quote key (.error e2)).result) := by
  refine ⟨fun _ => rfl, fun e => classify_gen_error_mem e, rfl, by decide, ?_⟩
  intro e1 e2 h
  have h401 := h "401" (by simp)
  have hapi := h "api_key" (by simp)
  have h429 := h "429" (by simp)
  have hquota := h "quota" (by simp)
  have hconn := h "connection" (by simp)
  show classify_gen_error e1 = classify_gen_error e2
  simp only [classify_gen_error, h401, hapi, h429, hquota, hconn]

/-- Witness for C10: two different exception texts both containing only
the 401 marker are mapped to the same returned constant. -/
theorem generate_quote_failure_range_witness :
    (generate_quote none (.error "HTTP 401 at host")).result =
      (generate_quote none (.error "got 401 back")).result :=
  (generate_quote_failure_range none).2.2.2.2 "HTTP 401 at host" "got 401 back"
    (by decide)

/-- C5: the log stream never depends on the secret values (only on
whether the Telegram credentials are present), and in a run where both
stages fail no logged line contains the token-bearing Telegram URL as a
substring, for any token. -/
theorem flow_logs_secret_free (env1 env2 : Env) (llm : Except String String)
    (world : TgWorld)
    (htok : truthy env1.telegram_token = truthy env2.telegram_token)
    (hchat : truthy env1.telegram_chat_id = truthy env2.telegram_chat_id) :
    (main_flow env1 llm world).logs = (main_flow env2 llm world).logs
    ∧ (∀ e etg token line,
        line ∈ (main_flow env1 (.error e) (.exn etg)).logs →
        ¬ ((telegramUrl token).data <:+: line.data)) := by
  constructor
  · have hlog : ∀ (env : Env) (msg : String),
        (to_telegram env.telegram_token env.telegram_chat_id msg world).logs =
          if truthy env.telegram_token && truthy env.telegram_chat_id then
            tgWorldLogs world
          else [TG_MISSING_CREDS_LOG] := by
      intro env msg
      by_cases ht : truthy env.telegram_token = true
      · by_cases hc : truthy env.telegram_chat_id = true
        · rw [to_telegram_present _ _ _ _ ht hc]
          simp [ht, hc]
        · have hc' : truthy env.telegram_chat_id = false := by simpa using hc
          rw [to_telegram_absent _ _ _ _ (Or.inr hc')]
          simp [hc']
      · have ht' : truthy env.telegram_token = false := by simpa using ht
        rw [to_telegram_absent _ _ _ _ (Or.inl ht')]
        simp [ht']
    simp [main_flow, hlog, htok, hchat, generate_quote_logs]
  · intro e etg token line h
    exact url_not_in_constants token line (double_failure_logs_mem env1 e etg line h)

/-- Witness for C5: two runs differing only in their secrets produce the
same logs, and the URL built from a concrete token does not occur in a
logged failure line. -/
theorem flow_logs_secret_free_witness :
    (main_flow ⟨some "KEY-A", some "TOKEN-A", some "42"⟩
        (.error "401") (.exn "timeout")).logs =
      (main_flow ⟨some "KEY-B", some "TOKEN-B", some "42"⟩
        (.error "401") (.exn "timeout")).logs
    ∧ ¬ ((telegramUrl "TOKEN-A").data <:+: GEN_AUTH_MSG.data) := by
  have h := flow_logs_secret_free ⟨some "KEY-A", some "TOKEN-A", some "42"⟩
      ⟨some "KEY-B", some "TOKEN-B", some "42"⟩ (.error "401") (.exn "timeout")
      (by decide) (by decide)
  exact ⟨h.1, h.2 "401" "timeout" "TOKEN-A" GEN_AUTH_MSG (by decide)⟩

end BotPrefect
